import Mathlib

/-
Verification of the MAMOptics atmosphere-process glue layer
(components/eamxx/src/physics/mam/eamxx_mam_optics_process_interface.{hpp,cpp}).

The C++ code is a thin adapter: `set_grids` registers input/output fields with
the driver's field registry, `initialize_impl` allocates fixed-shape scratch
buffers and fills lookup tables with placeholder values, and `run_impl`
dispatches one unit of work per atmosphere column, calling two routines of the
external mam4xx aerosol-physics library (`modal_aero_calcsize_sub` and
`aer_rad_props_lw`).  The mam4xx library itself is an external collaborator and
is not part of the examined file set; its routines are modelled below as
black-box functions over exactly the arguments the call sites pass, producing
new contents for exactly the data the call sites hand them for writing.

Field values are modelled as rationals (the C++ `Real` is a double; no claim
here depends on rounding).  Kokkos views are modelled as records carrying their
extents plus a total content function; Kokkos's default allocation behaviour
(labelled views are zero-initialized) is reflected in `initialize_impl`.
-/

namespace MamOptics

/-! ## Compile-time constants of the external mam4 library.

These are `constexpr` values referenced by the glue code but defined in the
external mam4xx library (not part of the examined source).  The claims use them
only symbolically; the concrete values below are those of mam4xx. -/

/-- mam4::modal_aer_opt::nswbands (number of shortwave bands). -/
def nswbands : Nat := 14

/-- mam4::modal_aer_opt::nlwbands (number of longwave bands). -/
def nlwbands : Nat := 16

/-- mam4::AeroConfig::num_modes() (number of aerosol modes). -/
def ntot_amode : Nat := 4

/-- mam4::AeroConfig::num_aerosol_ids(). -/
def num_aerosol_ids : Nat := 7

/-- mam4::ndrop::nvars. -/
def nvars : Nat := 40

/-- mam4::ndrop::maxd_aspectype. -/
def maxd_aspectype : Nat := 14

/-- mam4::ndrop::nspec_max. -/
def nspec_max : Nat := 8

/-- mam4::ndrop::top_lev (first vertical level treated by the size update). -/
def top_lev : Nat := 6

/-- mam4::modal_aer_opt::ncoef (Chebyshev coefficient count). -/
def ncoef : Nat := 5

/-- mam4::modal_aer_opt::coef_number. -/
def coef_number : Nat := 5

/-- mam4::modal_aer_opt::refindex_real. -/
def refindex_real : Nat := 7

/-- mam4::modal_aer_opt::refindex_im. -/
def refindex_im : Nat := 10

/-- mam4::modal_aer_opt::max_nspec. -/
def max_nspec : Nat := 7

/-! ## Views -/

/-- A complex number as stored in a Kokkos::complex<Real>: real and imaginary
parts. -/
abbrev Cq : Type := ℚ × ℚ

/-- The complex value written by `Kokkos::deep_copy(view, 1.0)` and by
`crefwlw_[i] = 1.0`. -/
def cOne : Cq := (1, 0)

/-- Model of a rank-1 Kokkos view: extent plus total content function. -/
structure View1 (α : Type) where
  d0 : Nat
  data : Nat → α

/-- Model of a rank-2 Kokkos view. -/
structure View2 (α : Type) where
  d0 : Nat
  d1 : Nat
  data : Nat → Nat → α

/-- Model of a rank-3 Kokkos view. -/
structure View3 (α : Type) where
  d0 : Nat
  d1 : Nat
  d2 : Nat
  data : Nat → Nat → Nat → α

/-! ## Field registration (`MAMOptics::set_grids`) -/

/-- Direction of a field registration (`add_field<Required>` vs
`add_field<Computed>`). -/
inductive FieldDir : Type
  | required
  | computed
deriving DecidableEq, Repr

/-- One `add_field` call: field name, layout extents, direction. -/
structure FieldRequest where
  name : String
  dims : List Nat
  dir : FieldDir
deriving DecidableEq, Repr

/-- Embedding of `MAMOptics::set_grids`: given the grid's local column count
and vertical-level count, the list of `add_field` registrations the method
performs, in program order.  Layouts transcribed from the source:
`scalar3d_layout_mid = (ncol, nlev)`, `scalar3d_layout_int = (ncol, nlev+1)`,
`scalar3d_swband_layout = (ncol, nswbands, nlev)`,
`scalar3d_lwband_layout = (ncol, nlev, nlwbands)`. -/
def set_grids (ncol nlev : Nat) : List FieldRequest :=
  [ ⟨"T_mid", [ncol, nlev], .required⟩,
    ⟨"p_mid", [ncol, nlev], .required⟩,
    ⟨"cldfrac_tot", [ncol, nlev], .required⟩,
    ⟨"z_int", [ncol, nlev + 1], .required⟩,
    ⟨"z_mid", [ncol, nlev], .required⟩,
    ⟨"p_int", [ncol, nlev + 1], .required⟩,
    ⟨"pseudo_density", [ncol, nlev], .required⟩,
    ⟨"pseudo_density_dry", [ncol, nlev], .required⟩,
    ⟨"aero_g_sw", [ncol, nswbands, nlev], .computed⟩,
    ⟨"aero_ssa_sw", [ncol, nswbands, nlev], .computed⟩,
    ⟨"aero_tau_sw", [ncol, nswbands, nlev], .computed⟩,
    ⟨"aero_tau_lw", [ncol, nlev, nlwbands], .computed⟩,
    ⟨"nccn", [ncol, nlev], .computed⟩ ]

/-! ## Process state -/

/-- Contents of the Required input fields, as bound by `initialize_impl`
(column-major index order (icol, k)).  These are read-only views. -/
structure InputFields where
  T_mid : Nat → Nat → ℚ
  p_mid : Nat → Nat → ℚ
  cldfrac_tot : Nat → Nat → ℚ
  z_mid : Nat → Nat → ℚ
  z_int : Nat → Nat → ℚ
  p_int : Nat → Nat → ℚ
  pseudo_density : Nat → Nat → ℚ
  pseudo_density_dry : Nat → Nat → ℚ

/-- Contents of the Computed output fields. -/
structure OutputFields where
  aero_g_sw : Nat → Nat → Nat → ℚ
  aero_ssa_sw : Nat → Nat → Nat → ℚ
  aero_tau_sw : Nat → Nat → Nat → ℚ
  aero_tau_lw : Nat → Nat → Nat → ℚ
  nccn : Nat → Nat → ℚ

/-- The scratch buffers owned by the process (member views of `MAMOptics`).
`crefwlw_`/`crefwsw_` are fixed-size C arrays, the rest are Kokkos views;
`absplw_`/`refrtablw_`/`refitablw_` are C arrays of views indexed by
(mode, longwave band). -/
structure Scratch where
  state_q : View2 ℚ
  qqcw : View2 ℚ
  ext_cmip6_lw : View2 ℚ
  specrefndxlw : View2 Cq
  absplw : Nat → Nat → View3 ℚ
  refrtablw : Nat → Nat → View1 ℚ
  refitablw : Nat → Nat → View1 ℚ
  crefwlw : Nat → Cq
  crefwsw : Nat → Cq
  mass : View2 ℚ
  cheb : View3 ℚ
  dgnumwet_m : View3 ℚ
  dgnumdry_m : View3 ℚ
  radsurf : View2 ℚ
  logradsurf : View2 ℚ
  specrefindex : View3 Cq
  qaerwat_m : View3 ℚ
  ext_cmip6_lw_inv_m : View3 ℚ

/-- Full mutable state seen by `run_impl`: the bound input fields, the output
fields, and the scratch buffers. -/
structure MAMState where
  inputs : InputFields
  outputs : OutputFields
  scratch : Scratch

/-- Embedding of `MAMOptics::initialize_impl`: allocates every scratch buffer
with its declared shape and fills the lookup tables with placeholder values
(`deep_copy(state_q_,10)`, `deep_copy(qqcw_,10)`, all other filled tables to
1.0).  Views allocated without a subsequent `deep_copy` hold Kokkos's default
zero initialization. -/
def initialize_impl (ncol nlev : Nat) : Scratch :=
  { state_q := ⟨nlev, nvars, fun _ _ => 10⟩
    qqcw := ⟨nlev, nvars, fun _ _ => 10⟩
    ext_cmip6_lw := ⟨nlev, nlwbands, fun _ _ => 1⟩
    specrefndxlw := ⟨nlwbands, maxd_aspectype, fun _ _ => cOne⟩
    absplw := fun _ _ => ⟨coef_number, refindex_real, refindex_im, fun _ _ _ => 1⟩
    refrtablw := fun _ _ => ⟨refindex_real, fun _ => 1⟩
    refitablw := fun _ _ => ⟨refindex_im, fun _ => 1⟩
    crefwlw := fun _ => cOne
    crefwsw := fun _ => cOne
    mass := ⟨ncol, nlev, fun _ _ => 0⟩
    cheb := ⟨ncol, ncoef, nlev, fun _ _ _ => 0⟩
    dgnumwet_m := ⟨ncol, nlev, ntot_amode, fun _ _ _ => 0⟩
    dgnumdry_m := ⟨ncol, nlev, ntot_amode, fun _ _ _ => 0⟩
    radsurf := ⟨ncol, nlev, fun _ _ => 0⟩
    logradsurf := ⟨ncol, nlev, fun _ _ => 0⟩
    specrefindex := ⟨ncol, max_nspec, nlwbands, fun _ _ _ => (0, 0)⟩
    qaerwat_m := ⟨ncol, nlev, ntot_amode, fun _ _ _ => 0⟩
    ext_cmip6_lw_inv_m := ⟨ncol, nlev, nlwbands, fun _ _ _ => 0⟩ }

/-! ## External mam4xx routines

The per-column dispatch calls four routines of the external mam4xx library.
Their code is not part of the examined file set, so they are modelled from the
spec as black-box functions over exactly the data the call sites pass. -/

/-- Parameter tables filled by `mam4::ndrop::get_e3sm_parameters` (a
deterministic parameter table with no inputs). -/
structure E3SMParams where
  nspec_amode : Nat → Int
  lspectype_amode : Nat → Nat → Int
  lmassptr_amode : Nat → Nat → Int
  specdens_amode : Nat → ℚ
  spechygro : Nat → ℚ
  numptr_amode : Nat → Int
  mam_idx : Nat → Nat → Int
  mam_cnst_idx : Nat → Nat → Int

/-- Outputs of `mam4::modal_aero_calcsize::init_calcsize` (deterministic,
no inputs at the call site). -/
structure CalcsizeInit where
  inv_density : Nat → Nat → ℚ
  num2vol_ratio_min : Nat → ℚ
  num2vol_ratio_max : Nat → ℚ
  num2vol_ratio_max_nmodes : Nat → ℚ
  num2vol_ratio_min_nmodes : Nat → ℚ
  num2vol_ratio_nom_nmodes : Nat → ℚ
  dgnmin_nmodes : Nat → ℚ
  dgnmax_nmodes : Nat → ℚ
  dgnnom_nmodes : Nat → ℚ
  mean_std_dev_nmodes : Nat → ℚ
  noxf_acc2ait : Nat → Bool
  n_common_species_ait_accum : Int
  ait_spec_in_acc : Nat → Int
  acc_spec_in_ait : Nat → Int

/-- Data written by one `modal_aero_calcsize_sub` call: the interstitial and
cloud-borne current diameters (`dgncur_i`, `dgncur_c`), indexed by mode.  The
call site passes `state_q_k`/`qqcw_k` as inputs only (`update_mmr = false`). -/
structure CalcsizeResult where
  dgncur_i : Nat → ℚ
  dgncur_c : Nat → ℚ

/-- The arguments the `aer_rad_props_lw` call site passes, in source order:
`dt`, the per-column atmospheric slices, the full (shared) `state_q_` and
`ext_cmip6_lw_` views, the aerosol parameter tables, the longwave lookup
tables, and the per-column slices of the work buffers. -/
structure LwArgs where
  dt : ℚ
  pmid : Nat → ℚ
  pint : Nat → ℚ
  temperature : Nat → ℚ
  zm : Nat → ℚ
  zi : Nat → ℚ
  state_q : Nat → Nat → ℚ
  pdel : Nat → ℚ
  pdeldry : Nat → ℚ
  cldn : Nat → ℚ
  ext_cmip6_lw : Nat → Nat → ℚ
  nspec_amode : Nat → Int
  sigmag_amode : Nat → ℚ
  lmassptr_amode : Nat → Nat → Int
  spechygro : Nat → ℚ
  specdens_amode : Nat → ℚ
  lspectype_amode : Nat → Nat → Int
  specrefndxlw : Nat → Nat → Cq
  crefwlw : Nat → Cq
  crefwsw : Nat → Cq
  absplw : Nat → Nat → Nat → Nat → Nat → ℚ
  refrtablw : Nat → Nat → Nat → ℚ
  refitablw : Nat → Nat → Nat → ℚ
  mass : Nat → ℚ
  cheb : Nat → Nat → ℚ
  dgnumwet : Nat → Nat → ℚ
  dgnumdry : Nat → Nat → ℚ
  radsurf : Nat → ℚ
  logradsurf : Nat → ℚ
  specrefindex : Nat → Nat → Cq
  qaerwat : Nat → Nat → ℚ
  ext_cmip6_lw_inv : Nat → Nat → ℚ

/-- Data written by one `aer_rad_props_lw` call: the column's longwave optical
depth slice `odap_aer` (level x band) and new contents for the nine per-column
work-view slices it receives. -/
structure LwResult where
  odap_aer : Nat → Nat → ℚ
  mass : Nat → ℚ
  cheb : Nat → Nat → ℚ
  dgnumwet : Nat → Nat → ℚ
  dgnumdry : Nat → Nat → ℚ
  radsurf : Nat → ℚ
  logradsurf : Nat → ℚ
  specrefindex : Nat → Nat → Cq
  qaerwat : Nat → Nat → ℚ
  ext_cmip6_lw_inv : Nat → Nat → ℚ

/-- Modelled from the spec: the external mam4xx aerosol-physics library
(`get_e3sm_parameters`, `init_calcsize`, `modal_aero_calcsize_sub`,
`aer_rad_props_lw`), which is a collaborator whose code is not in the examined
file set.  Each routine is an arbitrary function of exactly the arguments its
call site passes, returning new contents for exactly the data handed to it for
writing ("call the external modal-size-update routine followed by the external
longwave aerosol-optics routine, writing results into the per-column slice of
the output fields"). -/
structure Externals where
  get_e3sm_parameters : E3SMParams
  init_calcsize : CalcsizeInit
  modal_aero_calcsize_sub :
    (Nat → ℚ) → (Nat → ℚ) → ℚ → Bool → Bool → Bool →
    E3SMParams → CalcsizeInit → CalcsizeResult
  aer_rad_props_lw : LwArgs → LwResult

/-! ## Per-column dispatch (`MAMOptics::run_impl`) -/

/-- The `sigmag_amode` table, written out literally in `run_impl`. -/
def sigmag_amode : Nat → ℚ := fun m =>
  if m = 0 then 18 / 10
  else if m = 1 then 16 / 10
  else if m = 2 then 18 / 10
  else if m = 3 then 16000000238418579 / 10000000000000000
  else 0

/-- Call events, used to record the order in which the dispatch invokes the
external routines. -/
inductive Event : Type
  | calcsize (icol kk : Nat)
  | lw (icol : Nat)
deriving DecidableEq, Repr

/-- Write of one `modal_aero_calcsize_sub` result into
`dgnumdry_m_(icol, kk, :)` (the `dgncur_i` subview). -/
def sizeUpd (icol kk : Nat) (dgrow : Nat → ℚ) (dg : Nat → Nat → Nat → ℚ) :
    Nat → Nat → Nat → ℚ :=
  fun c k m => if c = icol ∧ k = kk then dgrow m else dg c k m

/-- One `modal_aero_calcsize_sub` call of the level loop: passes row `kk` of
the shared `state_q_` and `qqcw_` views (as inputs), the flags
`do_adjust = true`, `do_aitacc_transfer = true`, `update_mmr = false`, and the
parameter tables. -/
def sizeCall (ext : Externals) (dt : ℚ) (sq qq : Nat → Nat → ℚ) (kk : Nat) :
    CalcsizeResult :=
  ext.modal_aero_calcsize_sub (fun i => sq kk i) (fun i => qq kk i)
    dt true true false ext.get_e3sm_parameters ext.init_calcsize

/-- One iteration of the level loop: call `modal_aero_calcsize_sub` for level
`kk`, write the resulting `dgncur_i` into `dgnumdry_m_(icol, kk, :)`
(`dgncur_c` is a discarded local), record the call. -/
def sizeStep (ext : Externals) (dt : ℚ) (sq qq : Nat → Nat → ℚ) (icol : Nat) :
    ((Nat → Nat → Nat → ℚ) × List Event) → Nat →
    ((Nat → Nat → Nat → ℚ) × List Event) :=
  fun acc kk =>
    (sizeUpd icol kk (sizeCall ext dt sq qq kk).dgncur_i acc.1,
     acc.2 ++ [Event.calcsize icol kk])

/-- The level loop `for (kk = mam4::ndrop::top_lev; kk < nlev_; ++kk)` of one
column's work unit.  Returns the updated `dgnumdry_m_` contents and the call
trace. -/
def calcsizeLoopT (ext : Externals) (dt : ℚ) (sq qq : Nat → Nat → ℚ)
    (nlev icol : Nat) (dg : Nat → Nat → Nat → ℚ) :
    (Nat → Nat → Nat → ℚ) × List Event :=
  (List.range' top_lev (nlev - top_lev)).foldl (sizeStep ext dt sq qq icol) (dg, [])

/-- Scratch state at the moment the optics routine is invoked for column
`icol`: the size-update loop has rewritten `dgnumdry_m_` and nothing else. -/
def scAfterSize (ext : Externals) (dt : ℚ) (nlev : Nat) (sc : Scratch)
    (icol : Nat) : Scratch :=
  { sc with dgnumdry_m :=
      { sc.dgnumdry_m with
        data := (calcsizeLoopT ext dt sc.state_q.data sc.qqcw.data nlev icol
          sc.dgnumdry_m.data).1 } }

/-- The argument bundle of the `aer_rad_props_lw` call for column `icol`,
transcribed from the call site: per-column subviews of the atmospheric fields,
the full `state_q_` and `ext_cmip6_lw_` views, the parameter tables produced by
`get_e3sm_parameters` plus the literal `sigmag_amode` table, the longwave
lookup tables, and per-column subviews of the nine work buffers. -/
def lwArgs (dt : ℚ) (inp : InputFields) (sc : Scratch) (icol : Nat)
    (params : E3SMParams) : LwArgs :=
  { dt := dt
    pmid := fun k => inp.p_mid icol k
    pint := fun k => inp.p_int icol k
    temperature := fun k => inp.T_mid icol k
    zm := fun k => inp.z_mid icol k
    zi := fun k => inp.z_int icol k
    state_q := sc.state_q.data
    pdel := fun k => inp.pseudo_density icol k
    pdeldry := fun k => inp.pseudo_density_dry icol k
    cldn := fun k => inp.cldfrac_tot icol k
    ext_cmip6_lw := sc.ext_cmip6_lw.data
    nspec_amode := params.nspec_amode
    sigmag_amode := sigmag_amode
    lmassptr_amode := params.lmassptr_amode
    spechygro := params.spechygro
    specdens_amode := params.specdens_amode
    lspectype_amode := params.lspectype_amode
    specrefndxlw := sc.specrefndxlw.data
    crefwlw := sc.crefwlw
    crefwsw := sc.crefwsw
    absplw := fun m b i j k => (sc.absplw m b).data i j k
    refrtablw := fun m b i => (sc.refrtablw m b).data i
    refitablw := fun m b i => (sc.refitablw m b).data i
    mass := fun k => sc.mass.data icol k
    cheb := fun i k => sc.cheb.data icol i k
    dgnumwet := fun k m => sc.dgnumwet_m.data icol k m
    dgnumdry := fun k m => sc.dgnumdry_m.data icol k m
    radsurf := fun k => sc.radsurf.data icol k
    logradsurf := fun k => sc.logradsurf.data icol k
    specrefindex := fun i b => sc.specrefindex.data icol i b
    qaerwat := fun k m => sc.qaerwat_m.data icol k m
    ext_cmip6_lw_inv := fun k b => sc.ext_cmip6_lw_inv_m.data icol k b }

/-- Result of the `aer_rad_props_lw` call for column `icol`, made on the
scratch state left by the column's size-update loop. -/
def lwRes (ext : Externals) (dt : ℚ) (nlev : Nat) (inp : InputFields)
    (sc : Scratch) (icol : Nat) : LwResult :=
  ext.aer_rad_props_lw
    (lwArgs dt inp (scAfterSize ext dt nlev sc icol) icol ext.get_e3sm_parameters)

/-- Writes of one `aer_rad_props_lw` call back into the work buffers: the nine
per-column work-view slices of column `icol` take the routine's new contents;
everything else is untouched. -/
def applyLwWork (sc : Scratch) (icol : Nat) (res : LwResult) : Scratch :=
  { sc with
    mass := { sc.mass with
      data := fun c k => if c = icol then res.mass k else sc.mass.data c k }
    cheb := { sc.cheb with
      data := fun c i k => if c = icol then res.cheb i k else sc.cheb.data c i k }
    dgnumwet_m := { sc.dgnumwet_m with
      data := fun c k m => if c = icol then res.dgnumwet k m else sc.dgnumwet_m.data c k m }
    dgnumdry_m := { sc.dgnumdry_m with
      data := fun c k m => if c = icol then res.dgnumdry k m else sc.dgnumdry_m.data c k m }
    radsurf := { sc.radsurf with
      data := fun c k => if c = icol then res.radsurf k else sc.radsurf.data c k }
    logradsurf := { sc.logradsurf with
      data := fun c k => if c = icol then res.logradsurf k else sc.logradsurf.data c k }
    specrefindex := { sc.specrefindex with
      data := fun c i b => if c = icol then res.specrefindex i b else sc.specrefindex.data c i b }
    qaerwat_m := { sc.qaerwat_m with
      data := fun c k m => if c = icol then res.qaerwat k m else sc.qaerwat_m.data c k m }
    ext_cmip6_lw_inv_m := { sc.ext_cmip6_lw_inv_m with
      data := fun c k b => if c = icol then res.ext_cmip6_lw_inv k b else sc.ext_cmip6_lw_inv_m.data c k b } }

/-- The scratch state a column's work unit leaves behind: the size-update
loop's writes to `dgnumdry_m_`, then the optics routine's writes to its work
views.  A pure function of the input fields and the incoming scratch state. -/
def colScratch (ext : Externals) (dt : ℚ) (nlev : Nat) (inp : InputFields)
    (sc : Scratch) (icol : Nat) : Scratch :=
  applyLwWork (scAfterSize ext dt nlev sc icol) icol (lwRes ext dt nlev inp sc icol)

/-- One column's work unit (the body of the `Kokkos::parallel_for` lambda in
`run_impl`): run the size-update loop, call `aer_rad_props_lw`, write the
optics result into `odap_aer_icol = ekat::subview(aero_tau_lw, icol)`, and
return the call trace. -/
def colWorkT (ext : Externals) (dt : ℚ) (nlev : Nat) (s : MAMState)
    (icol : Nat) : MAMState × List Event :=
  let res := lwRes ext dt nlev s.inputs s.scratch icol
  ({ inputs := s.inputs
     outputs := { s.outputs with
       aero_tau_lw := fun c k b =>
         if c = icol then res.odap_aer k b else s.outputs.aero_tau_lw c k b }
     scratch := colScratch ext dt nlev s.inputs s.scratch icol },
   (calcsizeLoopT ext dt s.scratch.state_q.data s.scratch.qqcw.data nlev icol
      s.scratch.dgnumdry_m.data).2 ++ [Event.lw icol])

/-- One column's work unit, state part. -/
def colWork (ext : Externals) (dt : ℚ) (nlev : Nat) (s : MAMState)
    (icol : Nat) : MAMState :=
  (colWorkT ext dt nlev s icol).1

/-- Embedding of `MAMOptics::run_impl` with its call trace: the dispatch runs
one work unit per column `icol` in `[0, ncol)` (the
`Kokkos::parallel_for(policy, ...)` over `league_rank`; the work units are
independent, so the sequential fold is a faithful model — see the frame
theorems below). -/
def run_implT (ext : Externals) (dt : ℚ) (ncol nlev : Nat) (s : MAMState) :
    MAMState × List Event :=
  (List.range ncol).foldl
    (fun acc icol =>
      let r := colWorkT ext dt nlev acc.1 icol
      (r.1, acc.2 ++ r.2))
    (s, [])

/-- Embedding of `MAMOptics::run_impl`, state part. -/
def run_impl (ext : Externals) (dt : ℚ) (ncol nlev : Nat) (s : MAMState) :
    MAMState :=
  (run_implT ext dt ncol nlev s).1

/-- The call trace one column's work unit produces: its size-update calls for
levels `top_lev, ..., nlev-1`, then its longwave-optics call. -/
def colTrace (nlev icol : Nat) : List Event :=
  ((List.range' top_lev (nlev - top_lev)).map (Event.calcsize icol)) ++ [Event.lw icol]

/-! ## Scratch-buffer access footprint of one work unit

For the disjointness claim, the scratch memory a column's work unit touches is
tracked at the granularity the call sites expose: the buffers `state_q_`,
`qqcw_`, `ext_cmip6_lw_` and the lookup tables have no column dimension and are
passed whole (or row-wise, with the same rows for every column), while the nine
work buffers are passed as `ekat::subview(.., icol)` column slices. -/

/-- A region of scratch-buffer memory handed to the external routines by one
work unit: either one of the column-blind shared buffers, or the column slice
`(c)` of one of the per-column work buffers. -/
inductive BufLoc : Type
  | stateQ
  | qqcw
  | extCmip6Lw
  | specrefndxlwTab
  | crefwlwTab
  | crefwswTab
  | absplwTab
  | refrtablwTab
  | refitablwTab
  | massCol (c : Nat)
  | chebCol (c : Nat)
  | dgnumwetCol (c : Nat)
  | dgnumdryCol (c : Nat)
  | radsurfCol (c : Nat)
  | logradsurfCol (c : Nat)
  | specrefindexCol (c : Nat)
  | qaerwatCol (c : Nat)
  | extCmip6LwInvCol (c : Nat)
deriving DecidableEq, Repr

/-- The column a scratch region belongs to, if it is a per-column slice;
`none` for the shared, column-blind buffers. -/
def BufLoc.owner : BufLoc → Option Nat
  | .massCol c | .chebCol c | .dgnumwetCol c | .dgnumdryCol c | .radsurfCol c
  | .logradsurfCol c | .specrefindexCol c | .qaerwatCol c | .extCmip6LwInvCol c => some c
  | _ => none

/-- The scratch regions column `icol`'s work unit hands to the external
routines, in call order: each size-loop iteration passes a `state_q_` row and a
`qqcw_` row and writes the `dgnumdry_m_` column slice; the optics call passes
the full `state_q_` and `ext_cmip6_lw_` views, the longwave lookup tables, and
the column slices of the nine work buffers. -/
def colAccesses (nlev icol : Nat) : List BufLoc :=
  ((List.range' top_lev (nlev - top_lev)).flatMap
      (fun _ => [.stateQ, .qqcw, .dgnumdryCol icol]))
    ++ [.stateQ, .extCmip6Lw, .specrefndxlwTab, .crefwlwTab, .crefwswTab,
        .absplwTab, .refrtablwTab, .refitablwTab,
        .massCol icol, .chebCol icol, .dgnumwetCol icol, .dgnumdryCol icol,
        .radsurfCol icol, .logradsurfCol icol, .specrefindexCol icol,
        .qaerwatCol icol, .extCmip6LwInvCol icol]

/-! ## Concrete instances for witnesses and counterexamples -/

/-- A concrete external-library instance with all routines constant, used only
to instantiate universally quantified statements at a concrete point. -/
def trivExt : Externals :=
  { get_e3sm_parameters :=
      ⟨fun _ => 0, fun _ _ => 0, fun _ _ => 0, fun _ => 0, fun _ => 0,
       fun _ => 0, fun _ _ => 0, fun _ _ => 0⟩
    init_calcsize :=
      ⟨fun _ _ => 0, fun _ => 0, fun _ => 0, fun _ => 0, fun _ => 0, fun _ => 0,
       fun _ => 0, fun _ => 0, fun _ => 0, fun _ => 0, fun _ => false, 0,
       fun _ => 0, fun _ => 0⟩
    modal_aero_calcsize_sub := fun _ _ _ _ _ _ _ _ => ⟨fun _ => 0, fun _ => 0⟩
    aer_rad_props_lw := fun _ =>
      ⟨fun _ _ => 0, fun _ => 0, fun _ _ => 0, fun _ _ => 0, fun _ _ => 0,
       fun _ => 0, fun _ => 0, fun _ _ => (0, 0), fun _ _ => 0, fun _ _ => 0⟩ }

/-- Input fields that are zero everywhere. -/
def zeroInputs : InputFields :=
  ⟨fun _ _ => 0, fun _ _ => 0, fun _ _ => 0, fun _ _ => 0, fun _ _ => 0,
   fun _ _ => 0, fun _ _ => 0, fun _ _ => 0⟩

/-- Output fields all holding the constant `v`. -/
def constOutputs (v : ℚ) : OutputFields :=
  ⟨fun _ _ _ => v, fun _ _ _ => v, fun _ _ _ => v, fun _ _ _ => v, fun _ _ => v⟩

/-- The input fields of the end-to-end scenario: a single-column, 2-level grid
with temperature 280 K everywhere, pressure 1e5 Pa at layer 1 and 9e4 Pa at
layer 2, and cloud fraction zero. -/
def scenarioInputs : InputFields :=
  { zeroInputs with
    T_mid := fun _ _ => 280
    p_mid := fun _ k => if k = 0 then 100000 else 90000
    cldfrac_tot := fun _ _ => 0 }

/-- The full initial state of the end-to-end scenario: scenario inputs, output
fields holding an arbitrary sentinel, scratch freshly allocated by
`initialize_impl` for one column and two levels. -/
def scenarioState : MAMState :=
  { inputs := scenarioInputs
    outputs := constOutputs 0
    scratch := initialize_impl 1 2 }

/-- First state of the determinism counterexample: zero inputs, outputs all 0,
fresh scratch. -/
def cexState1 : MAMState :=
  { inputs := zeroInputs
    outputs := constOutputs 0
    scratch := initialize_impl 1 1 }

/-- Second state of the determinism counterexample: identical input field
contents and identical scratch-buffer initial state, but different initial
contents in the output fields. -/
def cexState2 : MAMState :=
  { inputs := zeroInputs
    outputs := constOutputs 1
    scratch := initialize_impl 1 1 }

/-- A generic concrete state used to instantiate hypotheses of universally
quantified theorems (two columns, seven levels, fresh scratch). -/
def witState : MAMState :=
  { inputs := zeroInputs
    outputs := constOutputs 0
    scratch := initialize_impl 2 7 }

/-! ## Agreement predicates and shapes -/

/-- Two scratch states agree on the shared (column-blind) buffers: `state_q_`,
`qqcw_`, `ext_cmip6_lw_` and the longwave lookup tables. -/
def SharedEq (a b : Scratch) : Prop :=
  a.state_q = b.state_q ∧ a.qqcw = b.qqcw ∧ a.ext_cmip6_lw = b.ext_cmip6_lw ∧
  a.specrefndxlw = b.specrefndxlw ∧ a.absplw = b.absplw ∧
  a.refrtablw = b.refrtablw ∧ a.refitablw = b.refitablw ∧
  a.crefwlw = b.crefwlw ∧ a.crefwsw = b.crefwsw

/-- Two scratch states agree on column `c`'s slice of every per-column work
buffer. -/
def ColEq (a b : Scratch) (c : Nat) : Prop :=
  (∀ k, a.mass.data c k = b.mass.data c k) ∧
  (∀ i k, a.cheb.data c i k = b.cheb.data c i k) ∧
  (∀ k m, a.dgnumwet_m.data c k m = b.dgnumwet_m.data c k m) ∧
  (∀ k m, a.dgnumdry_m.data c k m = b.dgnumdry_m.data c k m) ∧
  (∀ k, a.radsurf.data c k = b.radsurf.data c k) ∧
  (∀ k, a.logradsurf.data c k = b.logradsurf.data c k) ∧
  (∀ i w, a.specrefindex.data c i w = b.specrefindex.data c i w) ∧
  (∀ k m, a.qaerwat_m.data c k m = b.qaerwat_m.data c k m) ∧
  (∀ k w, a.ext_cmip6_lw_inv_m.data c k w = b.ext_cmip6_lw_inv_m.data c k w)

/-- The extents of every scratch view, gathered in one record. -/
structure ShapeRec where
  state_q : Nat × Nat
  qqcw : Nat × Nat
  ext_cmip6_lw : Nat × Nat
  specrefndxlw : Nat × Nat
  absplw : Nat → Nat → Nat × Nat × Nat
  refrtablw : Nat → Nat → Nat
  refitablw : Nat → Nat → Nat
  mass : Nat × Nat
  cheb : Nat × Nat × Nat
  dgnumwet_m : Nat × Nat × Nat
  dgnumdry_m : Nat × Nat × Nat
  radsurf : Nat × Nat
  logradsurf : Nat × Nat
  specrefindex : Nat × Nat × Nat
  qaerwat_m : Nat × Nat × Nat
  ext_cmip6_lw_inv_m : Nat × Nat × Nat

/-- Read off the extents of every scratch view. -/
def shapeOf (sc : Scratch) : ShapeRec :=
  { state_q := (sc.state_q.d0, sc.state_q.d1)
    qqcw := (sc.qqcw.d0, sc.qqcw.d1)
    ext_cmip6_lw := (sc.ext_cmip6_lw.d0, sc.ext_cmip6_lw.d1)
    specrefndxlw := (sc.specrefndxlw.d0, sc.specrefndxlw.d1)
    absplw := fun m b => ((sc.absplw m b).d0, (sc.absplw m b).d1, (sc.absplw m b).d2)
    refrtablw := fun m b => (sc.refrtablw m b).d0
    refitablw := fun m b => (sc.refitablw m b).d0
    mass := (sc.mass.d0, sc.mass.d1)
    cheb := (sc.cheb.d0, sc.cheb.d1, sc.cheb.d2)
    dgnumwet_m := (sc.dgnumwet_m.d0, sc.dgnumwet_m.d1, sc.dgnumwet_m.d2)
    dgnumdry_m := (sc.dgnumdry_m.d0, sc.dgnumdry_m.d1, sc.dgnumdry_m.d2)
    radsurf := (sc.radsurf.d0, sc.radsurf.d1)
    logradsurf := (sc.logradsurf.d0, sc.logradsurf.d1)
    specrefindex := (sc.specrefindex.d0, sc.specrefindex.d1, sc.specrefindex.d2)
    qaerwat_m := (sc.qaerwat_m.d0, sc.qaerwat_m.d1, sc.qaerwat_m.d2)
    ext_cmip6_lw_inv_m := (sc.ext_cmip6_lw_inv_m.d0, sc.ext_cmip6_lw_inv_m.d1,
      sc.ext_cmip6_lw_inv_m.d2) }

/-- The declared shapes of the workspace buffers for a grid with `ncol`
columns and `nlev` levels, as the spec states them: `state_q_`/`qqcw_` are
`nlev x nvars`, `mass_` is `ncol x nlev`, `cheb_` is `ncol x ncoef x nlev`,
`dgnumwet_m_`/`dgnumdry_m_`/`qaerwat_m_` are `ncol x nlev x num_modes`, each
`absplw_` entry is `coef_number x refindex_real x refindex_im`, and so on. -/
def declaredShapes (ncol nlev : Nat) : ShapeRec :=
  { state_q := (nlev, nvars)
    qqcw := (nlev, nvars)
    ext_cmip6_lw := (nlev, nlwbands)
    specrefndxlw := (nlwbands, maxd_aspectype)
    absplw := fun _ _ => (coef_number, refindex_real, refindex_im)
    refrtablw := fun _ _ => refindex_real
    refitablw := fun _ _ => refindex_im
    mass := (ncol, nlev)
    cheb := (ncol, ncoef, nlev)
    dgnumwet_m := (ncol, nlev, ntot_amode)
    dgnumdry_m := (ncol, nlev, ntot_amode)
    radsurf := (ncol, nlev)
    logradsurf := (ncol, nlev)
    specrefindex := (ncol, max_nspec, nlwbands)
    qaerwat_m := (ncol, nlev, ntot_amode)
    ext_cmip6_lw_inv_m := (ncol, nlev, nlwbands) }

/-! ## Claim statements -/

/-- Statement of claim C2 for one column: the dispatch trace is, column by
column, the size-update calls followed by that column's longwave-optics call,
and the dispatch writes the optics result of column `icol` into column `icol`'s
slice of `aero_tau_lw`, computed from the state the column's size-update phase
left behind. -/
def DispatchSpec (ext : Externals) (dt : ℚ) (ncol nlev : Nat) (s : MAMState)
    (icol : Nat) : Prop :=
  (run_implT ext dt ncol nlev s).2 = (List.range ncol).flatMap (colTrace nlev) ∧
  (run_impl ext dt ncol nlev s).outputs.aero_tau_lw icol =
    (lwRes ext dt nlev s.inputs s.scratch icol).odap_aer

/-- Statement of claim C3 for a pair of columns: column `i`'s work unit leaves
every output-field entry of column `j` unchanged, and after the whole dispatch
column `j`'s output slice is exactly what processing column `j` alone from the
initial state produces. -/
def ColumnFrame (ext : Externals) (dt : ℚ) (ncol nlev : Nat) (s : MAMState)
    (i j : Nat) : Prop :=
  (colWork ext dt nlev s i).outputs.aero_tau_lw j = s.outputs.aero_tau_lw j ∧
  (colWork ext dt nlev s i).outputs.aero_g_sw = s.outputs.aero_g_sw ∧
  (colWork ext dt nlev s i).outputs.aero_ssa_sw = s.outputs.aero_ssa_sw ∧
  (colWork ext dt nlev s i).outputs.aero_tau_sw = s.outputs.aero_tau_sw ∧
  (colWork ext dt nlev s i).outputs.nccn = s.outputs.nccn ∧
  (run_impl ext dt ncol nlev s).outputs.aero_tau_lw j =
    (colWork ext dt nlev s j).outputs.aero_tau_lw j

/-- Statement of the amended claim C4: two runs from states with identical
input-field contents and identical scratch-buffer state produce bit-identical
contents in the written output field `aero_tau_lw` on every dispatched column;
the four other output fields retain their pre-call contents. -/
def DeterministicOutputs (ext : Externals) (dt : ℚ) (ncol nlev : Nat)
    (s1 s2 : MAMState) : Prop :=
  (∀ c, c < ncol →
    (run_impl ext dt ncol nlev s1).outputs.aero_tau_lw c =
      (run_impl ext dt ncol nlev s2).outputs.aero_tau_lw c) ∧
  (run_impl ext dt ncol nlev s1).outputs.aero_g_sw = s1.outputs.aero_g_sw ∧
  (run_impl ext dt ncol nlev s1).outputs.aero_ssa_sw = s1.outputs.aero_ssa_sw ∧
  (run_impl ext dt ncol nlev s1).outputs.aero_tau_sw = s1.outputs.aero_tau_sw ∧
  (run_impl ext dt ncol nlev s1).outputs.nccn = s1.outputs.nccn

/-- Statement of claim C5: `initialize_impl` allocates every workspace buffer
with exactly its declared shape, and `run_impl` never changes any buffer's
extents (no reallocation or resizing between time steps). -/
def AllocShapes (ncol nlev : Nat) : Prop :=
  shapeOf (initialize_impl ncol nlev) = declaredShapes ncol nlev ∧
  ∀ ext dt s, shapeOf (run_impl ext dt ncol nlev s).scratch = shapeOf s.scratch

/-- Statement of the amended claim C7: every scratch region a work unit hands
to the external routines is either column-blind shared memory or a slice it
owns, so any region accessed by two different columns' work units is one of the
shared buffers, and the per-column slices of two distinct work units are
disjoint. -/
def OwnedDisjoint (nlev i j : Nat) : Prop :=
  (∀ l, l ∈ colAccesses nlev i → BufLoc.owner l = none ∨ BufLoc.owner l = some i) ∧
  (∀ l, l ∈ colAccesses nlev i → l ∈ colAccesses nlev j → BufLoc.owner l = none)

/-- Statement of claim C8 for one entry: after one dispatch on the single
column, 2-level scenario, entry `(0, k, b)` of `aero_tau_lw` holds the value
the longwave-optics routine computed for it — every entry is written, none is
left at its prior (uninitialized) contents. -/
def ScenarioPopulated (ext : Externals) (dt : ℚ) (k b : Nat) : Prop :=
  (run_impl ext dt 1 2 scenarioState).outputs.aero_tau_lw 0 k b =
    (lwRes ext dt 2 scenarioState.inputs scenarioState.scratch 0).odap_aer k b

/-! ## Helper lemmas: the size-update loop -/

/-- The level loop writes only pairs `(icol, kk)` with `kk` in the iterated
list: every other `dgnumdry_m_` entry passes through. -/
theorem sizefold_fst_frame (ext : Externals) (dt : ℚ) (sq qq : Nat → Nat → ℚ)
    (icol : Nat) :
    ∀ (l : List Nat) (p : (Nat → Nat → Nat → ℚ) × List Event) (c k m : Nat),
      (c ≠ icol ∨ k ∉ l) →
      (l.foldl (sizeStep ext dt sq qq icol) p).1 c k m = p.1 c k m := by
  intro l
  induction l with
  | nil => intro p c k m _; rfl
  | cons a t ih =>
    intro p c k m h
    have h1 : c ≠ icol ∨ k ∉ t := by
      rcases h with h | h
      · exact Or.inl h
      · exact Or.inr fun hk => h (List.mem_cons_of_mem a hk)
    have h2 : ¬(c = icol ∧ k = a) := by
      rcases h with h | h
      · exact fun hc => h hc.1
      · exact fun hc => h (hc.2 ▸ List.mem_cons_self a t)
    rw [List.foldl_cons, ih (sizeStep ext dt sq qq icol p a) c k m h1]
    simp [sizeStep, sizeUpd, h2]

/-- The level loop's call trace is the `calcsize` events of the iterated
levels, in order, appended to the incoming trace. -/
theorem sizefold_snd (ext : Externals) (dt : ℚ) (sq qq : Nat → Nat → ℚ)
    (icol : Nat) :
    ∀ (l : List Nat) (p : (Nat → Nat → Nat → ℚ) × List Event),
      (l.foldl (sizeStep ext dt sq qq icol) p).2 =
        p.2 ++ l.map (Event.calcsize icol) := by
  intro l
  induction l with
  | nil => intro p; simp
  | cons a t ih =>
    intro p
    rw [List.foldl_cons, ih]
    simp [sizeStep]

/-- The level loop's result at column `icol` depends on the incoming
`dgnumdry_m_` contents only through column `icol`'s slice. -/
theorem sizefold_fst_congr (ext : Externals) (dt : ℚ) (sq qq : Nat → Nat → ℚ)
    (icol : Nat) :
    ∀ (l : List Nat) (p1 p2 : (Nat → Nat → Nat → ℚ) × List Event),
      (∀ k m, p1.1 icol k m = p2.1 icol k m) →
      ∀ k m, (l.foldl (sizeStep ext dt sq qq icol) p1).1 icol k m =
        (l.foldl (sizeStep ext dt sq qq icol) p2).1 icol k m := by
  intro l
  induction l with
  | nil => intro p1 p2 h; exact h
  | cons a t ih =>
    intro p1 p2 h
    rw [List.foldl_cons, List.foldl_cons]
    apply ih
    intro k m
    show sizeUpd icol a _ p1.1 icol k m = sizeUpd icol a _ p2.1 icol k m
    unfold sizeUpd
    split
    · rfl
    · exact h k m

/-- One column's call trace: its size-update calls, then its optics call. -/
theorem colWorkT_trace (ext : Externals) (dt : ℚ) (nlev : Nat) (s : MAMState)
    (icol : Nat) : (colWorkT ext dt nlev s icol).2 = colTrace nlev icol := by
  show (calcsizeLoopT ext dt s.scratch.state_q.data s.scratch.qqcw.data nlev icol
      s.scratch.dgnumdry_m.data).2 ++ [Event.lw icol] = colTrace nlev icol
  rw [calcsizeLoopT, sizefold_snd]
  simp [colTrace]

/-! ## Helper lemmas: one column's work unit -/

/-- A work unit does not touch the input-field views. -/
theorem colWork_inputs (ext : Externals) (dt : ℚ) (nlev : Nat) (s : MAMState)
    (icol : Nat) : (colWork ext dt nlev s icol).inputs = s.inputs := rfl

/-- A work unit never writes the four output fields `aero_g_sw`,
`aero_ssa_sw`, `aero_tau_sw`, `nccn`. -/
theorem colWork_nontau (ext : Externals) (dt : ℚ) (nlev : Nat) (s : MAMState)
    (icol : Nat) :
    (colWork ext dt nlev s icol).outputs.aero_g_sw = s.outputs.aero_g_sw ∧
    (colWork ext dt nlev s icol).outputs.aero_ssa_sw = s.outputs.aero_ssa_sw ∧
    (colWork ext dt nlev s icol).outputs.aero_tau_sw = s.outputs.aero_tau_sw ∧
    (colWork ext dt nlev s icol).outputs.nccn = s.outputs.nccn :=
  ⟨rfl, rfl, rfl, rfl⟩

/-- A work unit leaves every other column's `aero_tau_lw` slice unchanged. -/
theorem colWork_tau_other (ext : Externals) (dt : ℚ) (nlev : Nat)
    (s : MAMState) (icol c : Nat) (h : c ≠ icol) :
    (colWork ext dt nlev s icol).outputs.aero_tau_lw c =
      s.outputs.aero_tau_lw c := by
  funext k b
  show (if c = icol then _ else s.outputs.aero_tau_lw c k b) = _
  rw [if_neg h]

/-- A work unit writes its own column's `aero_tau_lw` slice with the optics
result. -/
theorem colWork_tau_self (ext : Externals) (dt : ℚ) (nlev : Nat)
    (s : MAMState) (icol : Nat) :
    (colWork ext dt nlev s icol).outputs.aero_tau_lw icol =
      (lwRes ext dt nlev s.inputs s.scratch icol).odap_aer := by
  funext k b
  show (if icol = icol then _ else _) = _
  rw [if_pos rfl]

/-- A work unit leaves the shared scratch buffers untouched. -/
theorem colWork_shared (ext : Externals) (dt : ℚ) (nlev : Nat) (s : MAMState)
    (icol : Nat) :
    SharedEq (colWork ext dt nlev s icol).scratch s.scratch :=
  ⟨rfl, rfl, rfl, rfl, rfl, rfl, rfl, rfl, rfl⟩

/-- A work unit leaves every other column's work-buffer slices untouched. -/
theorem colWork_colEq_other (ext : Externals) (dt : ℚ) (nlev : Nat)
    (s : MAMState) (icol c : Nat) (h : c ≠ icol) :
    ColEq (colWork ext dt nlev s icol).scratch s.scratch c := by
  refine ⟨?_, ?_, ?_, ?_, ?_, ?_, ?_, ?_, ?_⟩
  · intro k
    show (if c = icol then _ else s.scratch.mass.data c k) = _
    rw [if_neg h]
  · intro i k
    show (if c = icol then _ else s.scratch.cheb.data c i k) = _
    rw [if_neg h]
  · intro k m
    show (if c = icol then _ else s.scratch.dgnumwet_m.data c k m) = _
    rw [if_neg h]
  · intro k m
    show (if c = icol then _
        else (scAfterSize ext dt nlev s.scratch icol).dgnumdry_m.data c k m) = _
    rw [if_neg h]
    exact sizefold_fst_frame ext dt _ _ icol _ _ c k m (Or.inl h)
  · intro k
    show (if c = icol then _ else s.scratch.radsurf.data c k) = _
    rw [if_neg h]
  · intro k
    show (if c = icol then _ else s.scratch.logradsurf.data c k) = _
    rw [if_neg h]
  · intro i w
    show (if c = icol then _ else s.scratch.specrefindex.data c i w) = _
    rw [if_neg h]
  · intro k m
    show (if c = icol then _ else s.scratch.qaerwat_m.data c k m) = _
    rw [if_neg h]
  · intro k w
    show (if c = icol then _ else s.scratch.ext_cmip6_lw_inv_m.data c k w) = _
    rw [if_neg h]

/-! ## Helper lemmas: agreement predicates -/

theorem sharedEq_refl (a : Scratch) : SharedEq a a :=
  ⟨rfl, rfl, rfl, rfl, rfl, rfl, rfl, rfl, rfl⟩

theorem sharedEq_trans {a b c : Scratch} (h1 : SharedEq a b)
    (h2 : SharedEq b c) : SharedEq a c := by
  obtain ⟨x1, x2, x3, x4, x5, x6, x7, x8, x9⟩ := h1
  obtain ⟨y1, y2, y3, y4, y5, y6, y7, y8, y9⟩ := h2
  exact ⟨x1.trans y1, x2.trans y2, x3.trans y3, x4.trans y4, x5.trans y5,
    x6.trans y6, x7.trans y7, x8.trans y8, x9.trans y9⟩

theorem colEq_refl (a : Scratch) (c : Nat) : ColEq a a c :=
  ⟨fun _ => rfl, fun _ _ => rfl, fun _ _ => rfl, fun _ _ => rfl, fun _ => rfl,
   fun _ => rfl, fun _ _ => rfl, fun _ _ => rfl, fun _ _ => rfl⟩

theorem colEq_trans {a b d : Scratch} {c : Nat} (h1 : ColEq a b c)
    (h2 : ColEq b d c) : ColEq a d c := by
  obtain ⟨x1, x2, x3, x4, x5, x6, x7, x8, x9⟩ := h1
  obtain ⟨y1, y2, y3, y4, y5, y6, y7, y8, y9⟩ := h2
  exact ⟨fun k => (x1 k).trans (y1 k), fun i k => (x2 i k).trans (y2 i k),
    fun k m => (x3 k m).trans (y3 k m), fun k m => (x4 k m).trans (y4 k m),
    fun k => (x5 k).trans (y5 k), fun k => (x6 k).trans (y6 k),
    fun i w => (x7 i w).trans (y7 i w), fun k m => (x8 k m).trans (y8 k m),
    fun k w => (x9 k w).trans (y9 k w)⟩

/-! ## Helper lemmas: what a work unit's calls depend on -/

/-- The size-update phase's `dgnumdry_m_` contents at column `icol` depend only
on the shared `state_q_`/`qqcw_` contents and column `icol`'s own incoming
slice. -/
theorem scAfterSize_dgnumdry_congr (ext : Externals) (dt : ℚ) (nlev : Nat)
    (a b : Scratch) (icol : Nat) (hsq : a.state_q = b.state_q)
    (hqq : a.qqcw = b.qqcw)
    (hdg : ∀ k m, a.dgnumdry_m.data icol k m = b.dgnumdry_m.data icol k m) :
    ∀ k m, (scAfterSize ext dt nlev a icol).dgnumdry_m.data icol k m =
      (scAfterSize ext dt nlev b icol).dgnumdry_m.data icol k m := by
  intro k m
  show (calcsizeLoopT ext dt a.state_q.data a.qqcw.data nlev icol
      a.dgnumdry_m.data).1 icol k m =
    (calcsizeLoopT ext dt b.state_q.data b.qqcw.data nlev icol
      b.dgnumdry_m.data).1 icol k m
  rw [hsq, hqq, calcsizeLoopT, calcsizeLoopT]
  exact sizefold_fst_congr ext dt b.state_q.data b.qqcw.data icol _
    (a.dgnumdry_m.data, []) (b.dgnumdry_m.data, []) hdg k m

/-- The argument bundle of the optics call depends on the scratch state only
through the shared buffers and column `icol`'s own slices. -/
theorem lwArgs_congr (dt : ℚ) (inp : InputFields) (a b : Scratch) (icol : Nat)
    (params : E3SMParams) (hsh : SharedEq a b) (hc : ColEq a b icol) :
    lwArgs dt inp a icol params = lwArgs dt inp b icol params := by
  obtain ⟨h1, h2, h3, h4, h5, h6, h7, h8, h9⟩ := hsh
  obtain ⟨c1, c2, c3, c4, c5, c6, c7, c8, c9⟩ := hc
  unfold lwArgs
  rw [h1, h3, h4, h5, h6, h7, h8, h9]
  congr 1
  · funext k; exact c1 k
  · funext i k; exact c2 i k
  · funext k m; exact c3 k m
  · funext k m; exact c4 k m
  · funext k; exact c5 k
  · funext k; exact c6 k
  · funext i w; exact c7 i w
  · funext k m; exact c8 k m
  · funext k w; exact c9 k w

/-- The optics call's result for column `icol` depends on the scratch state
only through the shared buffers and column `icol`'s own slices. -/
theorem lwRes_congr (ext : Externals) (dt : ℚ) (nlev : Nat)
    (inp : InputFields) (a b : Scratch) (icol : Nat) (hsh : SharedEq a b)
    (hc : ColEq a b icol) :
    lwRes ext dt nlev inp a icol = lwRes ext dt nlev inp b icol := by
  unfold lwRes
  apply congrArg
  apply lwArgs_congr
  · exact hsh
  · obtain ⟨c1, c2, c3, c4, c5, c6, c7, c8, c9⟩ := hc
    exact ⟨c1, c2, c3,
      scAfterSize_dgnumdry_congr ext dt nlev a b icol hsh.1 hsh.2.1 c4,
      c5, c6, c7, c8, c9⟩

/-- A work unit's writes — the `aero_tau_lw` slice and the column's scratch
slices — depend on the incoming state only through the input fields, the
shared scratch buffers, and the column's own scratch slices. -/
theorem colWork_congr (ext : Externals) (dt : ℚ) (nlev : Nat)
    (s t : MAMState) (icol : Nat) (hi : s.inputs = t.inputs)
    (hsh : SharedEq s.scratch t.scratch)
    (hc : ColEq s.scratch t.scratch icol) :
    (colWork ext dt nlev s icol).outputs.aero_tau_lw icol =
      (colWork ext dt nlev t icol).outputs.aero_tau_lw icol ∧
    ColEq (colWork ext dt nlev s icol).scratch
      (colWork ext dt nlev t icol).scratch icol := by
  have hres : lwRes ext dt nlev s.inputs s.scratch icol =
      lwRes ext dt nlev t.inputs t.scratch icol := by
    rw [hi]
    exact lwRes_congr ext dt nlev t.inputs s.scratch t.scratch icol hsh hc
  constructor
  · rw [colWork_tau_self, colWork_tau_self, hres]
  · refine ⟨?_, ?_, ?_, ?_, ?_, ?_, ?_, ?_, ?_⟩
    · intro k
      show (if icol = icol then (lwRes ext dt nlev s.inputs s.scratch icol).mass k
          else _) =
        (if icol = icol then (lwRes ext dt nlev t.inputs t.scratch icol).mass k
          else _)
      rw [if_pos rfl, if_pos rfl, hres]
    · intro i k
      show (if icol = icol then (lwRes ext dt nlev s.inputs s.scratch icol).cheb i k
          else _) =
        (if icol = icol then (lwRes ext dt nlev t.inputs t.scratch icol).cheb i k
          else _)
      rw [if_pos rfl, if_pos rfl, hres]
    · intro k m
      show (if icol = icol then (lwRes ext dt nlev s.inputs s.scratch icol).dgnumwet k m
          else _) =
        (if icol = icol then (lwRes ext dt nlev t.inputs t.scratch icol).dgnumwet k m
          else _)
      rw [if_pos rfl, if_pos rfl, hres]
    · intro k m
      show (if icol = icol then (lwRes ext dt nlev s.inputs s.scratch icol).dgnumdry k m
          else _) =
        (if icol = icol then (lwRes ext dt nlev t.inputs t.scratch icol).dgnumdry k m
          else _)
      rw [if_pos rfl, if_pos rfl, hres]
    · intro k
      show (if icol = icol then (lwRes ext dt nlev s.inputs s.scratch icol).radsurf k
          else _) =
        (if icol = icol then (lwRes ext dt nlev t.inputs t.scratch icol).radsurf k
          else _)
      rw [if_pos rfl, if_pos rfl, hres]
    · intro k
      show (if icol = icol then (lwRes ext dt nlev s.inputs s.scratch icol).logradsurf k
          else _) =
        (if icol = icol then (lwRes ext dt nlev t.inputs t.scratch icol).logradsurf k
          else _)
      rw [if_pos rfl, if_pos rfl, hres]
    · intro i w
      show (if icol = icol then (lwRes ext dt nlev s.inputs s.scratch icol).specrefindex i w
          else _) =
        (if icol = icol then (lwRes ext dt nlev t.inputs t.scratch icol).specrefindex i w
          else _)
      rw [if_pos rfl, if_pos rfl, hres]
    · intro k m
      show (if icol = icol then (lwRes ext dt nlev s.inputs s.scratch icol).qaerwat k m
          else _) =
        (if icol = icol then (lwRes ext dt nlev t.inputs t.scratch icol).qaerwat k m
          else _)
      rw [if_pos rfl, if_pos rfl, hres]
    · intro k w
      show (if icol = icol then (lwRes ext dt nlev s.inputs s.scratch icol).ext_cmip6_lw_inv k w
          else _) =
        (if icol = icol then (lwRes ext dt nlev t.inputs t.scratch icol).ext_cmip6_lw_inv k w
          else _)
      rw [if_pos rfl, if_pos rfl, hres]

/-! ## Helper lemmas: the whole dispatch as a fold of work units -/

/-- The state part of the traced dispatch is the plain fold of work units. -/
theorem runfold_fst (ext : Externals) (dt : ℚ) (nlev : Nat) :
    ∀ (l : List Nat) (s : MAMState) (es : List Event),
      (l.foldl
        (fun acc icol =>
          let r := colWorkT ext dt nlev acc.1 icol
          (r.1, acc.2 ++ r.2)) (s, es)).1 =
      l.foldl (colWork ext dt nlev) s := by
  intro l
  induction l with
  | nil => intro s es; rfl
  | cons a t ih =>
    intro s es
    rw [List.foldl_cons, List.foldl_cons]
    exact ih _ _

/-- `run_impl` is the fold of the per-column work units over `[0, ncol)`. -/
theorem run_impl_eq_fold (ext : Externals) (dt : ℚ) (ncol nlev : Nat)
    (s : MAMState) :
    run_impl ext dt ncol nlev s =
      (List.range ncol).foldl (colWork ext dt nlev) s :=
  runfold_fst ext dt nlev (List.range ncol) s []

/-- The dispatch's call trace is the concatenation of the per-column traces,
in column order. -/
theorem runfold_snd (ext : Externals) (dt : ℚ) (nlev : Nat) :
    ∀ (l : List Nat) (s : MAMState) (es : List Event),
      (l.foldl
        (fun acc icol =>
          let r := colWorkT ext dt nlev acc.1 icol
          (r.1, acc.2 ++ r.2)) (s, es)).2 =
      es ++ l.flatMap (colTrace nlev) := by
  intro l
  induction l with
  | nil => intro s es; simp
  | cons a t ih =>
    intro s es
    rw [List.foldl_cons, ih]
    rw [colWorkT_trace]
    simp

/-- The dispatch does not touch the input-field views. -/
theorem fold_inputs (ext : Externals) (dt : ℚ) (nlev : Nat) :
    ∀ (l : List Nat) (t : MAMState),
      (l.foldl (colWork ext dt nlev) t).inputs = t.inputs := by
  intro l
  induction l with
  | nil => intro t; rfl
  | cons a r ih =>
    intro t
    rw [List.foldl_cons]
    exact (ih _).trans (colWork_inputs ext dt nlev t a)

/-- The dispatch never writes the four output fields `aero_g_sw`,
`aero_ssa_sw`, `aero_tau_sw`, `nccn`. -/
theorem fold_nontau (ext : Externals) (dt : ℚ) (nlev : Nat) :
    ∀ (l : List Nat) (t : MAMState),
      (l.foldl (colWork ext dt nlev) t).outputs.aero_g_sw = t.outputs.aero_g_sw ∧
      (l.foldl (colWork ext dt nlev) t).outputs.aero_ssa_sw = t.outputs.aero_ssa_sw ∧
      (l.foldl (colWork ext dt nlev) t).outputs.aero_tau_sw = t.outputs.aero_tau_sw ∧
      (l.foldl (colWork ext dt nlev) t).outputs.nccn = t.outputs.nccn := by
  intro l
  induction l with
  | nil => intro t; exact ⟨rfl, rfl, rfl, rfl⟩
  | cons a r ih =>
    intro t
    rw [List.foldl_cons]
    obtain ⟨x1, x2, x3, x4⟩ := ih (colWork ext dt nlev t a)
    obtain ⟨y1, y2, y3, y4⟩ := colWork_nontau ext dt nlev t a
    exact ⟨x1.trans y1, x2.trans y2, x3.trans y3, x4.trans y4⟩

/-- The dispatch leaves the shared scratch buffers untouched. -/
theorem fold_shared (ext : Externals) (dt : ℚ) (nlev : Nat) :
    ∀ (l : List Nat) (t : MAMState),
      SharedEq (l.foldl (colWork ext dt nlev) t).scratch t.scratch := by
  intro l
  induction l with
  | nil => intro t; exact sharedEq_refl _
  | cons a r ih =>
    intro t
    rw [List.foldl_cons]
    exact sharedEq_trans (ih _) (colWork_shared ext dt nlev t a)

/-- A fold over work units for columns not including `c` leaves column `c`'s
`aero_tau_lw` slice unchanged. -/
theorem fold_tau_notin (ext : Externals) (dt : ℚ) (nlev : Nat) :
    ∀ (l : List Nat) (t : MAMState) (c : Nat), c ∉ l →
      (l.foldl (colWork ext dt nlev) t).outputs.aero_tau_lw c =
        t.outputs.aero_tau_lw c := by
  intro l
  induction l with
  | nil => intro t c _; rfl
  | cons a r ih =>
    intro t c h
    rw [List.foldl_cons]
    have h1 : c ∉ r := fun hk => h (List.mem_cons_of_mem a hk)
    have h2 : c ≠ a := fun hk => h (hk ▸ List.mem_cons_self a r)
    exact (ih _ c h1).trans (colWork_tau_other ext dt nlev t a c h2)

/-- A fold over work units for columns not including `c` leaves column `c`'s
work-buffer slices unchanged. -/
theorem fold_colEq_notin (ext : Externals) (dt : ℚ) (nlev : Nat) :
    ∀ (l : List Nat) (t : MAMState) (c : Nat), c ∉ l →
      ColEq (l.foldl (colWork ext dt nlev) t).scratch t.scratch c := by
  intro l
  induction l with
  | nil => intro t c _; exact colEq_refl _ _
  | cons a r ih =>
    intro t c h
    rw [List.foldl_cons]
    have h1 : c ∉ r := fun hk => h (List.mem_cons_of_mem a hk)
    have h2 : c ≠ a := fun hk => h (hk ▸ List.mem_cons_self a r)
    exact colEq_trans (ih _ c h1) (colWork_colEq_other ext dt nlev t a c h2)

/-- Main invariant: folding the work units over a duplicate-free column list
starting from any state that agrees with `s` on the inputs, the shared scratch,
and every listed column's slices, writes into each listed column's
`aero_tau_lw` slice exactly the optics result computed from `s` for that
column alone. -/
theorem fold_reaches (ext : Externals) (dt : ℚ) (nlev : Nat) (s : MAMState) :
    ∀ (l : List Nat) (t : MAMState), t.inputs = s.inputs →
      SharedEq t.scratch s.scratch →
      (∀ c, c ∈ l → ColEq t.scratch s.scratch c) → l.Nodup →
      ∀ c, c ∈ l →
        (l.foldl (colWork ext dt nlev) t).outputs.aero_tau_lw c =
          (lwRes ext dt nlev s.inputs s.scratch c).odap_aer := by
  intro l
  induction l with
  | nil => intro t _ _ _ _ c hc; exact absurd hc (List.not_mem_nil c)
  | cons a rest ih =>
    intro t hi hsh hcs hnd c hc
    obtain ⟨hna, hndr⟩ := List.nodup_cons.mp hnd
    rw [List.foldl_cons]
    rcases List.mem_cons.mp hc with rfl | hcr
    · rw [fold_tau_notin ext dt nlev rest _ c hna, colWork_tau_self]
      rw [hi]
      rw [lwRes_congr ext dt nlev s.inputs t.scratch s.scratch c hsh
        (hcs c (List.mem_cons_self c rest))]
    · apply ih (colWork ext dt nlev t a)
      · rw [colWork_inputs]; exact hi
      · exact sharedEq_trans (colWork_shared ext dt nlev t a) hsh
      · intro c2 hc2
        have hne : c2 ≠ a := fun hk => hna (hk ▸ hc2)
        exact colEq_trans (colWork_colEq_other ext dt nlev t a c2 hne)
          (hcs c2 (List.mem_cons_of_mem a hc2))
      · exact hndr
      · exact hcr

/-- After the dispatch, each dispatched column's `aero_tau_lw` slice is the
optics result computed from the initial state for that column alone. -/
theorem run_tau_eq (ext : Externals) (dt : ℚ) (ncol nlev : Nat) (s : MAMState)
    (c : Nat) (h : c < ncol) :
    (run_impl ext dt ncol nlev s).outputs.aero_tau_lw c =
      (lwRes ext dt nlev s.inputs s.scratch c).odap_aer := by
  rw [run_impl_eq_fold]
  exact fold_reaches ext dt nlev s (List.range ncol) s rfl (sharedEq_refl _)
    (fun c2 _ => colEq_refl _ _) (List.nodup_range ncol) c
    (List.mem_range.mpr h)

/-- Two-run lemma: starting from states with identical inputs and identical
scratch, the dispatch produces identical scratch and identical `aero_tau_lw`
contents on every dispatched column. -/
theorem fold_two_state (ext : Externals) (dt : ℚ) (nlev : Nat) :
    ∀ (l : List Nat), l.Nodup → ∀ (t1 t2 : MAMState),
      t1.inputs = t2.inputs → t1.scratch = t2.scratch →
      (l.foldl (colWork ext dt nlev) t1).scratch =
        (l.foldl (colWork ext dt nlev) t2).scratch ∧
      ∀ c, c ∈ l →
        (l.foldl (colWork ext dt nlev) t1).outputs.aero_tau_lw c =
          (l.foldl (colWork ext dt nlev) t2).outputs.aero_tau_lw c := by
  intro l
  induction l with
  | nil => intro _ t1 t2 _ hs; exact ⟨hs, fun c hc => absurd hc (List.not_mem_nil c)⟩
  | cons a rest ih =>
    intro hnd t1 t2 hi hs
    obtain ⟨hna, hndr⟩ := List.nodup_cons.mp hnd
    have hstep_sc : (colWork ext dt nlev t1 a).scratch =
        (colWork ext dt nlev t2 a).scratch := by
      show colScratch ext dt nlev t1.inputs t1.scratch a =
        colScratch ext dt nlev t2.inputs t2.scratch a
      rw [hi, hs]
    have hstep_i : (colWork ext dt nlev t1 a).inputs =
        (colWork ext dt nlev t2 a).inputs := by
      rw [colWork_inputs, colWork_inputs, hi]
    have hstep_tau : (colWork ext dt nlev t1 a).outputs.aero_tau_lw a =
        (colWork ext dt nlev t2 a).outputs.aero_tau_lw a := by
      rw [colWork_tau_self, colWork_tau_self, hi, hs]
    obtain ⟨ihs, ihtau⟩ := ih hndr (colWork ext dt nlev t1 a)
      (colWork ext dt nlev t2 a) hstep_i hstep_sc
    rw [List.foldl_cons, List.foldl_cons]
    refine ⟨ihs, ?_⟩
    intro c hc
    rcases List.mem_cons.mp hc with rfl | hcr
    · rw [fold_tau_notin ext dt nlev rest _ c hna,
        fold_tau_notin ext dt nlev rest _ c hna, hstep_tau]
    · exact ihtau c hcr

/-- Every scratch region a work unit hands to the external routines is either
column-blind or owned by that unit's own column. -/
theorem owner_of_mem_colAccesses (nlev icol : Nat) :
    ∀ l, l ∈ colAccesses nlev icol →
      BufLoc.owner l = none ∨ BufLoc.owner l = some icol := by
  intro l hl
  simp only [colAccesses, List.mem_append, List.mem_flatMap, List.mem_cons,
    List.not_mem_nil, or_false] at hl
  rcases hl with ⟨kk, -, rfl | rfl | rfl⟩ | rfl | rfl | rfl | rfl | rfl | rfl |
    rfl | rfl | rfl | rfl | rfl | rfl | rfl | rfl | rfl | rfl | rfl <;>
    first
    | exact Or.inl rfl
    | exact Or.inr rfl

/-! ## Claim theorems -/

/-- C1: for every grid handle (column count `ncol`, level count `nlev`),
`set_grids` registers exactly the eight required input fields `T_mid`, `p_mid`,
`cldfrac_tot`, `z_int`, `z_mid`, `p_int`, `pseudo_density`,
`pseudo_density_dry` and exactly the five computed output fields `aero_g_sw`,
`aero_ssa_sw`, `aero_tau_sw`, `aero_tau_lw`, `nccn`, with midpoint fields of
shape `ncol x nlev`, interface fields of shape `ncol x (nlev+1)`, shortwave
outputs of shape `ncol x nswbands x nlev`, and the longwave output of shape
`ncol x nlev x nlwbands`. -/
theorem set_grids_fields (ncol nlev : Nat) :
    (set_grids ncol nlev).filter (fun f => f.dir == FieldDir.required) =
      [ ⟨"T_mid", [ncol, nlev], .required⟩,
        ⟨"p_mid", [ncol, nlev], .required⟩,
        ⟨"cldfrac_tot", [ncol, nlev], .required⟩,
        ⟨"z_int", [ncol, nlev + 1], .required⟩,
        ⟨"z_mid", [ncol, nlev], .required⟩,
        ⟨"p_int", [ncol, nlev + 1], .required⟩,
        ⟨"pseudo_density", [ncol, nlev], .required⟩,
        ⟨"pseudo_density_dry", [ncol, nlev], .required⟩ ] ∧
    (set_grids ncol nlev).filter (fun f => f.dir == FieldDir.computed) =
      [ ⟨"aero_g_sw", [ncol, nswbands, nlev], .computed⟩,
        ⟨"aero_ssa_sw", [ncol, nswbands, nlev], .computed⟩,
        ⟨"aero_tau_sw", [ncol, nswbands, nlev], .computed⟩,
        ⟨"aero_tau_lw", [ncol, nlev, nlwbands], .computed⟩,
        ⟨"nccn", [ncol, nlev], .computed⟩ ] :=
  ⟨rfl, rfl⟩

/-- C2: for every column `icol` in `[0, ncol)`, the dispatch's trace is,
column by column, all the `modal_aero_calcsize_sub` calls (levels `top_lev` to
`nlev - 1`) followed by that column's `aer_rad_props_lw` call — so the size
update of a column always precedes its optics call — and the dispatch writes
the optics result into column `icol`'s slice of `aero_tau_lw`, computed from
the column's sliced inputs and the size-updated scratch state. -/
theorem run_impl_calcsize_before_lw (ext : Externals) (dt : ℚ)
    (ncol nlev : Nat) (s : MAMState) (icol : Nat) (h : icol < ncol) :
    DispatchSpec ext dt ncol nlev s icol := by
  constructor
  · have h2 := runfold_snd ext dt nlev (List.range ncol) s []
    simpa using h2
  · exact run_tau_eq ext dt ncol nlev s icol h

/-- Witness for C2 at a concrete instance: column 0 of a two-column,
seven-level dispatch with a concrete external library. -/
theorem run_impl_calcsize_before_lw_witness :
    0 < 2 ∧ DispatchSpec trivExt 0 2 7 witState 0 :=
  ⟨by decide, run_impl_calcsize_before_lw trivExt 0 2 7 witState 0 (by decide)⟩

/-- C3: for distinct columns `i ≠ j` with `j < ncol`, column `i`'s work unit
never alters any output-field entry of column `j`, and after the whole
dispatch column `j`'s output slice equals what processing column `j` alone
from the initial state produces — it does not depend on which other columns
were processed. -/
theorem run_impl_column_frame (ext : Externals) (dt : ℚ) (ncol nlev : Nat)
    (s : MAMState) (i j : Nat) (hij : i ≠ j) (hj : j < ncol) :
    ColumnFrame ext dt ncol nlev s i j := by
  obtain ⟨y1, y2, y3, y4⟩ := colWork_nontau ext dt nlev s i
  refine ⟨colWork_tau_other ext dt nlev s i j (Ne.symm hij), y1, y2, y3, y4, ?_⟩
  exact (run_tau_eq ext dt ncol nlev s j hj).trans
    (colWork_tau_self ext dt nlev s j).symm

/-- Witness for C3 at a concrete instance: columns 1 and 0 of a two-column,
seven-level dispatch with a concrete external library. -/
theorem run_impl_column_frame_witness :
    (1 : Nat) ≠ 0 ∧ 0 < 2 ∧ ColumnFrame trivExt 0 2 7 witState 1 0 :=
  ⟨by decide, by decide,
   run_impl_column_frame trivExt 0 2 7 witState 1 0 (by decide) (by decide)⟩

/-- C4 counterexample: two executions with identical input-field contents,
identical scratch-buffer initial state, and identical `dt` that do NOT produce
bit-identical contents in every output field — `nccn` is never written by
`run_impl`, so its differing initial contents survive the call. -/
theorem run_impl_not_output_deterministic :
    cexState1.inputs = cexState2.inputs ∧
    cexState1.scratch = cexState2.scratch ∧
    (run_impl trivExt 0 1 1 cexState1).outputs.nccn 0 0 ≠
      (run_impl trivExt 0 1 1 cexState2).outputs.nccn 0 0 := by
  refine ⟨rfl, rfl, ?_⟩
  decide

/-- C4 amended: two executions with identical input-field contents, identical
scratch-buffer initial state, and identical `dt` produce bit-identical
contents in the written output field `aero_tau_lw` on every dispatched column;
the other four output fields are not written at all and retain their pre-call
contents. -/
theorem run_impl_deterministic_outputs (ext : Externals) (dt : ℚ)
    (ncol nlev : Nat) (s1 s2 : MAMState) (hi : s1.inputs = s2.inputs)
    (hs : s1.scratch = s2.scratch) :
    DeterministicOutputs ext dt ncol nlev s1 s2 := by
  obtain ⟨x1, x2, x3, x4⟩ := fold_nontau ext dt nlev (List.range ncol) s1
  refine ⟨?_, ?_, ?_, ?_, ?_⟩
  · intro c hc
    rw [run_tau_eq ext dt ncol nlev s1 c hc,
      run_tau_eq ext dt ncol nlev s2 c hc, hi, hs]
  · rw [run_impl_eq_fold]; exact x1
  · rw [run_impl_eq_fold]; exact x2
  · rw [run_impl_eq_fold]; exact x3
  · rw [run_impl_eq_fold]; exact x4

/-- Witness for the amended C4 at a concrete instance. -/
theorem run_impl_deterministic_outputs_witness :
    cexState1.inputs = cexState1.inputs ∧
    DeterministicOutputs trivExt 0 1 1 cexState1 cexState1 :=
  ⟨rfl, run_impl_deterministic_outputs trivExt 0 1 1 cexState1 cexState1 rfl rfl⟩

/-- Buffer extents are preserved by every fold of work units: no work unit
reallocates or resizes a view. -/
theorem fold_shapes (ext : Externals) (dt : ℚ) (nlev : Nat) :
    ∀ (l : List Nat) (t : MAMState),
      shapeOf (l.foldl (colWork ext dt nlev) t).scratch = shapeOf t.scratch := by
  intro l
  induction l with
  | nil => intro t; rfl
  | cons a r ih =>
    intro t
    rw [List.foldl_cons]
    exact (ih _).trans rfl

/-- C5: for every grid with `ncol >= 1` columns and `nlev >= 1` levels,
`initialize_impl` allocates every workspace buffer with exactly its declared
shape, and `run_impl` never changes any buffer's extents between time steps. -/
theorem initialize_impl_shapes (ncol nlev : Nat) (_hC : 1 ≤ ncol)
    (_hL : 1 ≤ nlev) : AllocShapes ncol nlev := by
  constructor
  · rfl
  · intro ext dt s
    rw [run_impl_eq_fold]
    exact fold_shapes ext dt nlev (List.range ncol) s

/-- Witness for C5 at a concrete grid. -/
theorem initialize_impl_shapes_witness : 1 ≤ 1 ∧ AllocShapes 1 1 :=
  ⟨Nat.le_refl 1, initialize_impl_shapes 1 1 (Nat.le_refl 1) (Nat.le_refl 1)⟩

/-- C6: after `initialize_impl`, the lookup tables hold placeholder values:
every entry of `specrefndxlw_`, every entry of each `absplw_[mode][band]`,
`refrtablw_[mode][band]` and `refitablw_[mode][band]` table, every entry of
`ext_cmip6_lw_`, and every element of `crefwlw_` and `crefwsw_` equals 1.0
(complex entries equal the complex 1.0), and every entry of `state_q_` and
`qqcw_` equals 10. -/
theorem initialize_impl_placeholders (ncol nlev : Nat) :
    (∀ w i, (initialize_impl ncol nlev).specrefndxlw.data w i = cOne) ∧
    (∀ k w, (initialize_impl ncol nlev).ext_cmip6_lw.data k w = 1) ∧
    (∀ m w i j k, ((initialize_impl ncol nlev).absplw m w).data i j k = 1) ∧
    (∀ m w i, ((initialize_impl ncol nlev).refrtablw m w).data i = 1) ∧
    (∀ m w i, ((initialize_impl ncol nlev).refitablw m w).data i = 1) ∧
    (∀ i, (initialize_impl ncol nlev).crefwlw i = cOne) ∧
    (∀ i, (initialize_impl ncol nlev).crefwsw i = cOne) ∧
    (∀ k i, (initialize_impl ncol nlev).state_q.data k i = 10) ∧
    (∀ k i, (initialize_impl ncol nlev).qqcw.data k i = 10) :=
  ⟨fun _ _ => rfl, fun _ _ => rfl, fun _ _ _ _ _ => rfl, fun _ _ _ => rfl,
   fun _ _ _ => rfl, fun _ => rfl, fun _ => rfl, fun _ _ => rfl, fun _ _ => rfl⟩

/-- C7 counterexample: the scratch memory accessed by column 0's work unit is
NOT disjoint from that accessed by column 1's work unit — both hand the whole
shared `state_q_` buffer to the optics routine (already on a 2-level grid,
where the size loop is empty). -/
theorem scratch_not_partitioned :
    ¬ (colAccesses 2 0).Disjoint (colAccesses 2 1) :=
  fun h => h (show BufLoc.stateQ ∈ colAccesses 2 0 by decide)
    (show BufLoc.stateQ ∈ colAccesses 2 1 by decide)

/-- C7 amended: the per-column work buffers (`mass_`, `cheb_`, `dgnumwet_m_`,
`dgnumdry_m_`, `radsurf_`, `logradsurf_`, `specrefindex_`, `qaerwat_m_`,
`ext_cmip6_lw_inv_m_`) are partitioned into per-column slices and each work
unit accesses only its own column's slices, so the slice accesses of distinct
columns are disjoint; but the buffers `state_q_`, `qqcw_`, `ext_cmip6_lw_` and
the longwave lookup tables have no column dimension and are shared by every
work unit — every region accessed by two distinct columns is one of these
shared buffers. -/
theorem scratch_sharing_owned_disjoint (nlev i j : Nat) (hij : i ≠ j) :
    OwnedDisjoint nlev i j := by
  constructor
  · exact owner_of_mem_colAccesses nlev i
  · intro l h1 h2
    rcases owner_of_mem_colAccesses nlev i l h1 with h | h
    · exact h
    · rcases owner_of_mem_colAccesses nlev j l h2 with hj2 | hj2
      · exact hj2
      · exact absurd (Option.some.inj (h.symm.trans hj2)) hij

/-- Witness for the amended C7 at a concrete pair of columns. -/
theorem scratch_sharing_owned_disjoint_witness :
    (0 : Nat) ≠ 1 ∧ OwnedDisjoint 2 0 1 :=
  ⟨by decide, scratch_sharing_owned_disjoint 2 0 1 (by decide)⟩

/-- C8: on the single-column, 2-level scenario grid (temperature 280 K,
pressure 1e5 Pa at layer 1 and 9e4 Pa at layer 2, cloud fraction zero), one
`run_impl` call writes every entry `aero_tau_lw(0, k, b)`, `k < nlev`,
`b < nlwbands`, with the value the longwave-optics routine produced for it:
no entry retains its prior (uninitialized) contents. -/
theorem scenario_tau_lw_populated (ext : Externals) (dt : ℚ) (k b : Nat)
    (_hk : k < 2) (_hb : b < nlwbands) : ScenarioPopulated ext dt k b := by
  show (run_impl ext dt 1 2 scenarioState).outputs.aero_tau_lw 0 k b = _
  rw [run_tau_eq ext dt 1 2 scenarioState 0 (by decide)]

/-- Witness for C8 at a concrete entry and concrete external library. -/
theorem scenario_tau_lw_populated_witness :
    0 < 2 ∧ 0 < nlwbands ∧ ScenarioPopulated trivExt 0 0 0 :=
  ⟨by decide, by decide,
   scenario_tau_lw_populated trivExt 0 0 0 (by decide) (by decide)⟩

/-- C9: `run_impl` never writes the output fields `aero_g_sw`, `aero_ssa_sw`,
`aero_tau_sw` or `nccn`: for every input state, every external-library
behaviour and every `dt`, their contents after the dispatch are identical to
their contents before it, even though `set_grids` declares them Computed. -/
theorem run_impl_leaves_sw_and_nccn (ext : Externals) (dt : ℚ)
    (ncol nlev : Nat) (s : MAMState) :
    (run_impl ext dt ncol nlev s).outputs.aero_g_sw = s.outputs.aero_g_sw ∧
    (run_impl ext dt ncol nlev s).outputs.aero_ssa_sw = s.outputs.aero_ssa_sw ∧
    (run_impl ext dt ncol nlev s).outputs.aero_tau_sw = s.outputs.aero_tau_sw ∧
    (run_impl ext dt ncol nlev s).outputs.nccn = s.outputs.nccn := by
  obtain ⟨x1, x2, x3, x4⟩ := fold_nontau ext dt nlev (List.range ncol) s
  rw [run_impl_eq_fold]
  exact ⟨x1, x2, x3, x4⟩

/-- C10: within a column's work unit, the size-update loop runs only over
levels `top_lev <= kk < nlev`: at the moment the optics routine is invoked,
every `dgnumdry_m_(c, k, m)` entry with `k < top_lev` still holds the value it
had when the work unit started — the loop never writes it. -/
theorem calcsize_top_lev_frame (ext : Externals) (dt : ℚ) (nlev : Nat)
    (sc : Scratch) (icol c k m : Nat) (hk : k < top_lev) :
    (scAfterSize ext dt nlev sc icol).dgnumdry_m.data c k m =
      sc.dgnumdry_m.data c k m := by
  show (calcsizeLoopT ext dt sc.state_q.data sc.qqcw.data nlev icol
      sc.dgnumdry_m.data).1 c k m = _
  rw [calcsizeLoopT]
  apply sizefold_fst_frame
  right
  intro hmem
  exact absurd (List.mem_range'_1.mp hmem).1 (Nat.not_le_of_lt hk)

/-- Witness for C10 at a concrete level below `top_lev`. -/
theorem calcsize_top_lev_frame_witness :
    0 < top_lev ∧
    (scAfterSize trivExt 0 7 (initialize_impl 2 7) 1).dgnumdry_m.data 1 0 0 =
      (initialize_impl 2 7).dgnumdry_m.data 1 0 0 :=
  ⟨by decide,
   calcsize_top_lev_frame trivExt 0 7 (initialize_impl 2 7) 1 1 0 0 (by decide)⟩

end MamOptics
